import Mathlib

/-!
Verification development for the 4x6 printer MCP server (src/server.py).

Modelling conventions:
* Python floats are modelled by exact rationals `ℚ`.  All numeric literals of
  the source (10.0, 0.5, 0.1, 0.6, 0.8, ...) are exactly representable, and the
  two loop decrements (0.5 on the font size, 0.1 on the spacing scale) produce
  the intended grids exactly under rational arithmetic.
* Python strings are modelled by `String`; `str.split('\n')` by
  `String.splitOn "\n"`, `str.strip()` by `String.trim`, `str.startswith(p)` by
  `String.isPrefixOf p`.
* The two `while` loops of `find_optimal_scaling` are modelled by fuel-indexed
  recursion; the fuel passed at each call site strictly exceeds the loop's
  maximal iteration count (7 for the inner loop, 12 for the outer one), so the
  fueled function computes exactly what the Python loop computes.
* External effects (the temporary file, ReportLab's `doc.build`, the
  PDFtoPrinter subprocess) are modelled by their data: the document handed to
  the renderer is described by a `BuiltPdf` record, and the subprocess outcome
  (return code, stderr text) is an input of `print_file`.  ReportLab and
  mistune are assumed importable (`REPORTLAB_AVAILABLE`/`MARKDOWN_AVAILABLE`).
-/

namespace Printer

/-- One inch in points (`reportlab.lib.units.inch`). -/
def inch : ℚ := 72

/-- `base_font_size = 10.0` (src/server.py line 329). -/
def base_font_size : ℚ := 10

/-- `min_font_size = 5.0` (src/server.py line 330). -/
def min_font_size : ℚ := 5

/-- `min_spacing_scale = 0.5` (src/server.py line 342). -/
def min_spacing_scale : ℚ := 1/2

/-- `page_height = 4 * inch` (src/server.py line 336). -/
def page_height : ℚ := 4 * inch

/-- `margin = 0.25 * inch` (src/server.py line 337). -/
def margin : ℚ := (1/4) * inch

/-- `usable_height = (page_height - 2 * margin) * 2` — two 4x6 pages
(src/server.py line 338). -/
def usable_height : ℚ := (page_height - 2 * margin) * 2

/-- The dict returned by `calculate_font_sizes` (src/server.py lines 344-352). -/
structure FontSizes where
  title : ℚ
  h1 : ℚ
  h2 : ℚ
  h3 : ℚ
  body : ℚ
  leading_body : ℚ
deriving DecidableEq, Repr

/-- The dict returned by `calculate_spacing` (src/server.py lines 354-365). -/
structure Spacing where
  space_after_body : ℚ
  space_after_h1 : ℚ
  space_after_h2 : ℚ
  space_after_h3 : ℚ
  space_before_h1 : ℚ
  space_before_h2 : ℚ
  space_before_h3 : ℚ
  space_after_title : ℚ
deriving DecidableEq, Repr

/-- `calculate_font_sizes` as nested inside `find_optimal_scaling`
(src/server.py lines 344-352). -/
def calculate_font_sizes (font_size spacing_scale : ℚ) : FontSizes :=
  { title := font_size + 4
    h1 := font_size + 4
    h2 := font_size + 2
    h3 := font_size + 1
    body := font_size
    leading_body := font_size * max (11/10) ((13/10) * spacing_scale) }

/-- `calculate_spacing` as nested inside `find_optimal_scaling`
(src/server.py lines 354-365). -/
def calculate_spacing (font_size spacing_scale : ℚ) : Spacing :=
  let base_spacing := font_size * (6/10)
  { space_after_body := max 2 (base_spacing * spacing_scale)
    space_after_h1 := max 8 ((font_size + 4) * (8/10) * spacing_scale)
    space_after_h2 := max 6 ((font_size + 2) * (8/10) * spacing_scale)
    space_after_h3 := max 4 ((font_size + 1) * (7/10) * spacing_scale)
    space_before_h1 := max 10 ((font_size + 4) * 1 * spacing_scale)
    space_before_h2 := max 8 ((font_size + 2) * (9/10) * spacing_scale)
    space_before_h3 := max 6 ((font_size + 1) * (8/10) * spacing_scale)
    space_after_title := max 8 ((font_size + 4) * (8/10) * spacing_scale) }

/-- `calculate_font_sizes` as nested inside `create_formatted_pdf`
(src/server.py lines 567-575): a textual duplicate of the search-side copy. -/
def render_calculate_font_sizes (font_size spacing_scale : ℚ) : FontSizes :=
  { title := font_size + 4
    h1 := font_size + 4
    h2 := font_size + 2
    h3 := font_size + 1
    body := font_size
    leading_body := font_size * max (11/10) ((13/10) * spacing_scale) }

/-- `calculate_spacing` as nested inside `create_formatted_pdf`
(src/server.py lines 577-588): a textual duplicate of the search-side copy. -/
def render_calculate_spacing (font_size spacing_scale : ℚ) : Spacing :=
  let base_spacing := font_size * (6/10)
  { space_after_body := max 2 (base_spacing * spacing_scale)
    space_after_h1 := max 8 ((font_size + 4) * (8/10) * spacing_scale)
    space_after_h2 := max 6 ((font_size + 2) * (8/10) * spacing_scale)
    space_after_h3 := max 4 ((font_size + 1) * (7/10) * spacing_scale)
    space_before_h1 := max 10 ((font_size + 4) * 1 * spacing_scale)
    space_before_h2 := max 8 ((font_size + 2) * (9/10) * spacing_scale)
    space_before_h3 := max 6 ((font_size + 1) * (8/10) * spacing_scale)
    space_after_title := max 8 ((font_size + 4) * (8/10) * spacing_scale) }

/-- Helper for `splitLines`: walk the characters with the current piece
accumulated in reverse. -/
def splitLinesAux : List Char → List Char → List String
  | [], acc => [String.mk acc.reverse]
  | c :: rest, acc =>
    if c = '\n' then String.mk acc.reverse :: splitLinesAux rest []
    else splitLinesAux rest (c :: acc)

/-- Python's `content.split('\n')`: split at every newline, keeping empty
pieces (so `"".split('\n') = ['']`).  Defined by structural recursion on the
character list so that concrete instances evaluate inside the kernel. -/
def splitLines (content : String) : List String :=
  splitLinesAux content.data []

/-- Python's `line.strip()`: drop leading and trailing whitespace. -/
def pyStrip (s : String) : String :=
  String.mk (((s.data.dropWhile Char.isWhitespace).reverse.dropWhile
    Char.isWhitespace).reverse)

/-- Python's `line.startswith(pre)`. -/
def pyStartsWith (pre l : String) : Bool :=
  pre.data.isPrefixOf l.data

/-- Loop body of `estimate_height` (src/server.py lines 370-381): one pass of
`for line in lines`, adding this line's contribution to `total_height`. -/
def estimate_height_step (font_sizes : FontSizes) (spacing : Spacing)
    (total_height : ℚ) (l : String) : ℚ :=
  let line := pyStrip l
  if line = "" then
    total_height + spacing.space_after_body * (1/2)
  else if pyStartsWith "# " line then
    total_height + (font_sizes.h1 + spacing.space_before_h1 + spacing.space_after_h1)
  else if pyStartsWith "## " line then
    total_height + (font_sizes.h2 + spacing.space_before_h2 + spacing.space_after_h2)
  else if pyStartsWith "### " line then
    total_height + (font_sizes.h3 + spacing.space_before_h3 + spacing.space_after_h3)
  else
    total_height + (font_sizes.body + spacing.space_after_body)

/-- `estimate_height` as nested inside `find_optimal_scaling`
(src/server.py lines 367-382): `lines = content.split('\n')`, then the loop
accumulates into `total_height` starting from 0. -/
def estimate_height (content : String) (font_sizes : FontSizes) (spacing : Spacing) : ℚ :=
  (splitLines content).foldl (estimate_height_step font_sizes spacing) 0

/-- The fit test of the search (src/server.py line 400):
`estimated_height <= usable_height` at the style derived from `(f, s)`. -/
def fitsAt (content : String) (f s : ℚ) : Prop :=
  estimate_height content (calculate_font_sizes f s) (calculate_spacing f s) ≤ usable_height

instance decFitsAt (content : String) (f s : ℚ) : Decidable (fitsAt content f s) :=
  inferInstanceAs (Decidable (_ ≤ _))

/-- Boolean form of `fitsAt`, for closed decidable statements. -/
def fitsB (content : String) (f s : ℚ) : Bool :=
  decide (fitsAt content f s)

/-- Inner `while` loop of `find_optimal_scaling` (src/server.py lines
391-405): scan `test_spacing_scale` downward by 0.1 while it stays at or above
`min_spacing_scale`, returning the first scale whose estimated height fits.
The `Nat` argument is fuel; the loop exits after at most 7 calls, so any fuel
of at least 7 computes exactly the Python loop. -/
def innerFitLoop (content : String) (current_font_size : ℚ) : ℚ → Nat → Option ℚ
  | _, 0 => none
  | test_spacing_scale, fuel + 1 =>
    if test_spacing_scale ≥ min_spacing_scale then
      if estimate_height content
          (calculate_font_sizes current_font_size test_spacing_scale)
          (calculate_spacing current_font_size test_spacing_scale) ≤ usable_height then
        some test_spacing_scale
      else
        innerFitLoop content current_font_size (test_spacing_scale - 1/10) fuel
    else none

/-- Outer `while` loop of `find_optimal_scaling` (src/server.py lines
389-408): drop `current_font_size` by 0.5 after each exhausted inner scan and
reset `current_spacing_scale` to 1.0.  The loop exits after at most 12 calls,
so any fuel of at least 12 computes exactly the Python loop. -/
def outerFitLoop (content : String) : ℚ → ℚ → Nat → Option (ℚ × ℚ)
  | _, _, 0 => none
  | current_font_size, current_spacing_scale, fuel + 1 =>
    if current_font_size ≥ min_font_size then
      match innerFitLoop content current_font_size current_spacing_scale 10 with
      | some s => some (current_font_size, s)
      | none => outerFitLoop content (current_font_size - 1/2) 1 fuel
    else none

/-- `find_optimal_scaling` (src/server.py lines 327-410).  When the grid is
exhausted the source falls through to `return min_font_size,
min_spacing_scale` (line 410); there is no failure value. -/
def find_optimal_scaling (content : String) (format4x6 : Bool) : ℚ × ℚ :=
  if format4x6 = false then (base_font_size, 1)
  else
    match outerFitLoop content base_font_size 1 15 with
    | some p => p
    | none => (min_font_size, min_spacing_scale)

/-- The standard-format font sizes of `create_formatted_pdf`
(src/server.py lines 634-673): title 18, h1 16, h2 14, h3 12, body 12 with
leading 14. -/
def standard_font_sizes : FontSizes :=
  { title := 18, h1 := 16, h2 := 14, h3 := 12, body := 12, leading_body := 14 }

/-- The standard-format spacing of `create_formatted_pdf`
(src/server.py lines 634-673). -/
def standard_spacing : Spacing :=
  { space_after_body := 8
    space_after_h1 := 16
    space_after_h2 := 12
    space_after_h3 := 10
    space_before_h1 := 20
    space_before_h2 := 16
    space_before_h3 := 12
    space_after_title := 20 }

/-- The document `create_formatted_pdf` hands to ReportLab's `doc.build`:
its title block, the style it was built with and, for the 4x6 branch, the
`(font, scale)` pair `find_optimal_scaling` returned.  `chosen = some _`
exactly when the auto-fit search was invoked (the `format4x6` branch,
src/server.py line 561); the standard branch never calls the search. -/
structure BuiltPdf where
  title : Option String
  chosen : Option (ℚ × ℚ)
  font_sizes : FontSizes
  spacing : Spacing
deriving DecidableEq, Repr

/-- `create_formatted_pdf` (src/server.py lines 514-802), as the description
of the document it emits.  The 4x6 branch runs the search, derives the styles
from the winning pair with its own copies of the calculators, and builds the
document; no page count is measured and no fit-related failure path exists —
every input produces a built document (exceptions in the source arise only
from file-system or ReportLab faults, not from any fit check). -/
def create_formatted_pdf (content : String) (filename : Option String)
    (format4x6 : Bool) : BuiltPdf :=
  if format4x6 then
    let optimal := find_optimal_scaling content format4x6
    { title := filename
      chosen := some optimal
      font_sizes := render_calculate_font_sizes optimal.1 optimal.2
      spacing := render_calculate_spacing optimal.1 optimal.2 }
  else
    { title := filename
      chosen := none
      font_sizes := standard_font_sizes
      spacing := standard_spacing }

/-- The success string of `print_with_pdftoprinter` (src/server.py line 318). -/
def success_message (pdf_basename printer_display : String) : String :=
  "Successfully printed '" ++ pdf_basename ++ "' on " ++ printer_display

/-- The failure string of `print_with_pdftoprinter` (src/server.py line 320). -/
def printer_error_message (returncode : Int) (stderrText : String) : String :=
  "PDFtoPrinter error (code " ++ toString returncode ++ "): " ++
    (if stderrText = "" then "Unknown error" else stderrText)

/-- `print_with_pdftoprinter` (src/server.py lines 284-325); `returncode` and
`stderrText` are the outcome of the external PDFtoPrinter process. -/
def print_with_pdftoprinter (pdf_basename : String) (printer_name : Option String)
    (returncode : Int) (stderrText : String) : String :=
  let printer_display := printer_name.getD "default printer"
  if returncode = 0 then success_message pdf_basename printer_display
  else printer_error_message returncode stderrText

/-- What one `print_file` request produces: the response string returned to
the caller and the document that was emitted and dispatched, if any. -/
structure PrintOutcome where
  response : String
  emitted : Option BuiltPdf
deriving DecidableEq, Repr

/-- `print_file` (src/server.py lines 254-282): build the PDF, then dispatch
it with PDFtoPrinter and return that result string.  The source performs no
validation of `content` whatsoever before building.  `pdf_basename` is the
temporary file's name and `returncode`/`stderrText` the external process
outcome. -/
def print_file (content : String) (filename : Option String) (format4x6 : Bool)
    (printer_name : Option String) (pdf_basename : String)
    (returncode : Int) (stderrText : String) : PrintOutcome :=
  let pdf := create_formatted_pdf content filename format4x6
  { response := print_with_pdftoprinter pdf_basename printer_name returncode stderrText
    emitted := some pdf }

/-- The methods defined on class `PrinterMCPServer` (src/server.py lines
38-1002), in order of definition.  `estimate_content_height` is not among
them: the code resembling its body (lines 411-426) is stranded after the
unconditional `return` on line 410 inside `find_optimal_scaling`. -/
def pyServerMethods : List String :=
  ["__init__", "_get_pdf_printer_path", "run", "handle_message",
   "handle_initialize", "handle_list_tools", "handle_call_tool", "print_file",
   "print_with_pdftoprinter", "find_optimal_scaling", "test_content_fit",
   "create_formatted_pdf", "_html_to_paragraphs", "list_printers",
   "test_print", "cleanup_temp_files"]

/-- Outcome of calling a Python method that may hit a missing attribute. -/
inductive MethodCallResult where
  | ok (result : Bool)
  | attributeError (missing : String)
deriving DecidableEq, Repr

/-- `test_content_fit` (src/server.py lines 428-512).  With
`format4x6 = false` it returns `True` at once (line 431).  Otherwise it builds
test styles and a story (pure constructions that cannot fail) and then
evaluates `self.estimate_content_height(...)` (line 505): Python resolves the
attribute against the class's method table, and since no such method is
defined the call raises `AttributeError`.  The first branch of the lookup is
unreachable because `"estimate_content_height" ∉ pyServerMethods`. -/
def test_content_fit (content : String) (font_sizes : FontSizes)
    (format4x6 : Bool) : MethodCallResult :=
  if format4x6 = false then .ok true
  else if pyServerMethods.contains "estimate_content_height" then
    .ok true
  else .attributeError "estimate_content_height"

/-- The spacing-scale grid the inner loop scans, in scan order: 1.0 down to
0.5 in steps of 0.1. -/
def scaleGrid : List ℚ := [1, 9/10, 8/10, 7/10, 6/10, 5/10]

/-- The font-size grid the outer loop scans, in scan order: 10.0 down to 5.0
in steps of 0.5. -/
def fontGrid : List ℚ := [10, 19/2, 9, 17/2, 8, 15/2, 7, 13/2, 6, 11/2, 5]

/-- All grid pairs, fonts descending and scales descending within each font —
the scan order of the nested loops. -/
def gridPairs : List (ℚ × ℚ) :=
  (fontGrid.map (fun f => scaleGrid.map (fun s => (f, s)))).flatten

/-- Reference description of the inner scan, following the spec: walk the
scale list downward and return the first scale whose estimate fits. -/
def scanScales (content : String) (f : ℚ) : List ℚ → Option ℚ
  | [] => none
  | s :: rest => if fitsAt content f s then some s else scanScales content f rest

/-- Reference description of the whole search, following the spec: walk the
font list downward, scanning all scales at each font, and return the first
fitting pair. -/
def scanFonts (content : String) : List ℚ → Option (ℚ × ℚ)
  | [] => none
  | f :: rest =>
    match scanScales content f scaleGrid with
    | some s => some (f, s)
    | none => scanFonts content rest

/-- The first grid pair, in scan order, whose estimate fits the budget. -/
def firstFit (content : String) : Option (ℚ × ℚ) :=
  scanFonts content fontGrid

/-- One unfolding of the inner loop while the guard holds. -/
lemma innerFitLoop_succ (c : String) (f s : ℚ) (n : Nat)
    (hs : s ≥ min_spacing_scale) :
    innerFitLoop c f s (n + 1) =
      if fitsAt c f s then some s else innerFitLoop c f (s - 1/10) n := by
  rw [innerFitLoop, if_pos hs]
  rfl

/-- One unfolding of the inner loop when the guard fails. -/
lemma innerFitLoop_stop (c : String) (f s : ℚ) (n : Nat)
    (hs : ¬ s ≥ min_spacing_scale) :
    innerFitLoop c f s (n + 1) = none := by
  rw [innerFitLoop, if_neg hs]

/-- With fuel 10 and start scale 1.0, the fueled inner loop computes exactly
the downward scan of `scaleGrid`. -/
lemma innerFitLoop_eq_scan (c : String) (f : ℚ) :
    innerFitLoop c f 1 10 = scanScales c f scaleGrid := by
  rw [show (10 : Nat) = 9 + 1 from rfl,
    innerFitLoop_succ c f 1 9 (by norm_num [min_spacing_scale]),
    show (1 : ℚ) - 1/10 = 9/10 by norm_num,
    show (9 : Nat) = 8 + 1 from rfl,
    innerFitLoop_succ c f (9/10) 8 (by norm_num [min_spacing_scale]),
    show (9/10 : ℚ) - 1/10 = 8/10 by norm_num,
    show (8 : Nat) = 7 + 1 from rfl,
    innerFitLoop_succ c f (8/10) 7 (by norm_num [min_spacing_scale]),
    show (8/10 : ℚ) - 1/10 = 7/10 by norm_num,
    show (7 : Nat) = 6 + 1 from rfl,
    innerFitLoop_succ c f (7/10) 6 (by norm_num [min_spacing_scale]),
    show (7/10 : ℚ) - 1/10 = 6/10 by norm_num,
    show (6 : Nat) = 5 + 1 from rfl,
    innerFitLoop_succ c f (6/10) 5 (by norm_num [min_spacing_scale]),
    show (6/10 : ℚ) - 1/10 = 5/10 by norm_num,
    show (5 : Nat) = 4 + 1 from rfl,
    innerFitLoop_succ c f (5/10) 4 (by norm_num [min_spacing_scale]),
    show (5/10 : ℚ) - 1/10 = 4/10 by norm_num,
    show (4 : Nat) = 3 + 1 from rfl,
    innerFitLoop_stop c f (4/10) 3 (by norm_num [min_spacing_scale])]
  simp only [scanScales, scaleGrid]

/-- One unfolding of the outer loop while the guard holds. -/
lemma outerFitLoop_succ (c : String) (f cs : ℚ) (n : Nat)
    (hf : f ≥ min_font_size) :
    outerFitLoop c f cs (n + 1) =
      match innerFitLoop c f cs 10 with
      | some s => some (f, s)
      | none => outerFitLoop c (f - 1/2) 1 n := by
  rw [outerFitLoop, if_pos hf]

/-- One unfolding of the outer loop when the guard fails. -/
lemma outerFitLoop_stop (c : String) (f cs : ℚ) (n : Nat)
    (hf : ¬ f ≥ min_font_size) :
    outerFitLoop c f cs (n + 1) = none := by
  rw [outerFitLoop, if_neg hf]

/-- With fuel 15, start font 10.0 and start scale 1.0, the fueled outer loop
computes exactly the downward scan of `fontGrid`. -/
lemma outerFitLoop_eq_scan (c : String) :
    outerFitLoop c 10 1 15 = scanFonts c fontGrid := by
  rw [show (15 : Nat) = 14 + 1 from rfl,
    outerFitLoop_succ c 10 1 14 (by norm_num [min_font_size]),
    innerFitLoop_eq_scan,
    show (10 : ℚ) - 1/2 = 19/2 by norm_num,
    show (14 : Nat) = 13 + 1 from rfl,
    outerFitLoop_succ c (19/2) 1 13 (by norm_num [min_font_size]),
    innerFitLoop_eq_scan,
    show (19/2 : ℚ) - 1/2 = 9 by norm_num,
    show (13 : Nat) = 12 + 1 from rfl,
    outerFitLoop_succ c 9 1 12 (by norm_num [min_font_size]),
    innerFitLoop_eq_scan,
    show (9 : ℚ) - 1/2 = 17/2 by norm_num,
    show (12 : Nat) = 11 + 1 from rfl,
    outerFitLoop_succ c (17/2) 1 11 (by norm_num [min_font_size]),
    innerFitLoop_eq_scan,
    show (17/2 : ℚ) - 1/2 = 8 by norm_num,
    show (11 : Nat) = 10 + 1 from rfl,
    outerFitLoop_succ c 8 1 10 (by norm_num [min_font_size]),
    innerFitLoop_eq_scan,
    show (8 : ℚ) - 1/2 = 15/2 by norm_num,
    show (10 : Nat) = 9 + 1 from rfl,
    outerFitLoop_succ c (15/2) 1 9 (by norm_num [min_font_size]),
    innerFitLoop_eq_scan,
    show (15/2 : ℚ) - 1/2 = 7 by norm_num,
    show (9 : Nat) = 8 + 1 from rfl,
    outerFitLoop_succ c 7 1 8 (by norm_num [min_font_size]),
    innerFitLoop_eq_scan,
    show (7 : ℚ) - 1/2 = 13/2 by norm_num,
    show (8 : Nat) = 7 + 1 from rfl,
    outerFitLoop_succ c (13/2) 1 7 (by norm_num [min_font_size]),
    innerFitLoop_eq_scan,
    show (13/2 : ℚ) - 1/2 = 6 by norm_num,
    show (7 : Nat) = 6 + 1 from rfl,
    outerFitLoop_succ c 6 1 6 (by norm_num [min_font_size]),
    innerFitLoop_eq_scan,
    show (6 : ℚ) - 1/2 = 11/2 by norm_num,
    show (6 : Nat) = 5 + 1 from rfl,
    outerFitLoop_succ c (11/2) 1 5 (by norm_num [min_font_size]),
    innerFitLoop_eq_scan,
    show (11/2 : ℚ) - 1/2 = 5 by norm_num,
    show (5 : Nat) = 4 + 1 from rfl,
    outerFitLoop_succ c 5 1 4 (by norm_num [min_font_size]),
    innerFitLoop_eq_scan,
    show (5 : ℚ) - 1/2 = 9/2 by norm_num,
    show (4 : Nat) = 3 + 1 from rfl,
    outerFitLoop_stop c (9/2) 1 3 (by norm_num [min_font_size])]
  simp only [scanFonts, fontGrid]

/-- `find_optimal_scaling` with `format4x6 = true` is the first-fit scan of
the grid, with the floor pair as the fallback on exhaustion. -/
lemma find_optimal_scaling_eq_firstFit (c : String) :
    find_optimal_scaling c true =
      (firstFit c).getD (min_font_size, min_spacing_scale) := by
  rw [find_optimal_scaling]
  simp only [Bool.true_eq_false, if_false]
  rw [show base_font_size = 10 from rfl, outerFitLoop_eq_scan]
  cases h : scanFonts c fontGrid <;> simp [firstFit, h]

/-- A scale the inner scan returns fits and lies in the scanned list. -/
lemma scanScales_some (c : String) (f : ℚ) :
    ∀ (l : List ℚ) (s : ℚ), scanScales c f l = some s → s ∈ l ∧ fitsAt c f s := by
  intro l
  induction l with
  | nil => intro s h; simp [scanScales] at h
  | cons a rest ih =>
    intro s h
    rw [scanScales] at h
    by_cases ha : fitsAt c f a
    · rw [if_pos ha] at h
      cases h
      exact ⟨List.mem_cons_self a rest, ha⟩
    · rw [if_neg ha] at h
      rcases ih s h with ⟨hmem, hfit⟩
      exact ⟨List.mem_cons_of_mem a hmem, hfit⟩

/-- If some scale in the list fits, the inner scan succeeds. -/
lemma scanScales_isSome (c : String) (f : ℚ) :
    ∀ (l : List ℚ) (s : ℚ), s ∈ l → fitsAt c f s → (scanScales c f l).isSome := by
  intro l
  induction l with
  | nil => intro s h; simp at h
  | cons a rest ih =>
    intro s hmem hfit
    rw [scanScales]
    by_cases ha : fitsAt c f a
    · rw [if_pos ha]; rfl
    · rw [if_neg ha]
      rcases List.mem_cons.mp hmem with rfl | hmem
      · exact absurd hfit ha
      · exact ih s hmem hfit

/-- A pair the font scan returns fits the budget. -/
lemma scanFonts_some (c : String) :
    ∀ (l : List ℚ) (p : ℚ × ℚ), scanFonts c l = some p → fitsAt c p.1 p.2 := by
  intro l
  induction l with
  | nil => intro p h; simp [scanFonts] at h
  | cons f rest ih =>
    intro p h
    rw [scanFonts] at h
    cases hs : scanScales c f scaleGrid with
    | some s =>
      rw [hs] at h
      cases h
      exact (scanScales_some c f scaleGrid s hs).2
    | none =>
      rw [hs] at h
      exact ih p h

/-- If some (font, scale) pair of the grid fits, the font scan succeeds. -/
lemma scanFonts_isSome (c : String) :
    ∀ (l : List ℚ) (f s : ℚ), f ∈ l → s ∈ scaleGrid → fitsAt c f s →
      (scanFonts c l).isSome := by
  intro l
  induction l with
  | nil => intro f s h; simp at h
  | cons a rest ih =>
    intro f s hf hs hfit
    rw [scanFonts]
    cases hinner : scanScales c a scaleGrid with
    | some t => rfl
    | none =>
      rcases List.mem_cons.mp hf with rfl | hf
      · have := scanScales_isSome c f scaleGrid s hs hfit
        rw [hinner] at this
        exact absurd this (by simp)
      · exact ih f s hf hs hfit

/-- C3.  Search order and completeness: for every content string,
`find_optimal_scaling content true` equals the first-fit scan of the grid —
font sizes scanned downward from 10.0pt in 0.5pt steps and, within each font
size, spacing scales downward from 1.0 in 0.1 steps (restarting at 1.0 for
each new font size) — with the floor pair as fallback; and whenever any grid
pair's estimate fits `usable_height`, the returned pair's estimate fits it
too. -/
theorem find_optimal_scaling_scan_order (content : String) :
    find_optimal_scaling content true =
      (firstFit content).getD (min_font_size, min_spacing_scale) ∧
    (∀ f ∈ fontGrid, ∀ s ∈ scaleGrid, fitsAt content f s →
      fitsAt content (find_optimal_scaling content true).1
        (find_optimal_scaling content true).2) := by
  refine ⟨find_optimal_scaling_eq_firstFit content, ?_⟩
  intro f hf s hs hfit
  have hsome := scanFonts_isSome content fontGrid f s hf hs hfit
  rcases Option.isSome_iff_exists.mp hsome with ⟨p, hp⟩
  have hfitp : fitsAt content p.1 p.2 := scanFonts_some content fontGrid p hp
  have : find_optimal_scaling content true = p := by
    rw [find_optimal_scaling_eq_firstFit content, firstFit, hp, Option.getD_some]
  rw [this]
  exact hfitp

/-- A fit at the first grid pair for the one-line content "Short note": its
estimate is 10 + max 2 6 = 16 ≤ 504. -/
lemma fits_short_note : fitsAt "Short note" 10 1 := by
  norm_num +decide [fitsAt, usable_height, page_height, margin, inch,
    estimate_height, splitLines, splitLinesAux, estimate_height_step, pyStrip,
    pyStartsWith, calculate_font_sizes, calculate_spacing, max_def]

/-- Witness for C3 at a concrete input: content "Short note" fits at the
first grid pair, so the theorem yields a fitting returned pair. -/
theorem find_optimal_scaling_scan_order_witness :
    fitsAt "Short note" (find_optimal_scaling "Short note" true).1
      (find_optimal_scaling "Short note" true).2 :=
  (find_optimal_scaling_scan_order "Short note").2 10 (by decide) 1 (by decide)
    fits_short_note

/-- Per-line height contribution, written as the spec describes the Height
Estimator: the line's heading font size plus that heading level's before- and
after-spacing for heading lines, body font size plus body after-spacing for
any other non-blank line, and half of body after-spacing for a blank line. -/
def specLineHeight (font_sizes : FontSizes) (spacing : Spacing) (l : String) : ℚ :=
  let line := pyStrip l
  if line = "" then
    spacing.space_after_body * (1/2)
  else if pyStartsWith "# " line then
    font_sizes.h1 + spacing.space_before_h1 + spacing.space_after_h1
  else if pyStartsWith "## " line then
    font_sizes.h2 + spacing.space_before_h2 + spacing.space_after_h2
  else if pyStartsWith "### " line then
    font_sizes.h3 + spacing.space_before_h3 + spacing.space_after_h3
  else
    font_sizes.body + spacing.space_after_body

/-- The loop body adds exactly the per-line contribution. -/
lemma estimate_height_step_eq (fs : FontSizes) (sp : Spacing) (a : ℚ) (l : String) :
    estimate_height_step fs sp a l = a + specLineHeight fs sp l := by
  simp only [estimate_height_step, specLineHeight]
  split_ifs <;> ring

/-- Folding the loop body over any line list sums the contributions. -/
lemma foldl_estimate_height_step (fs : FontSizes) (sp : Spacing) :
    ∀ (lines : List String) (a : ℚ),
      lines.foldl (estimate_height_step fs sp) a =
        a + (lines.map (specLineHeight fs sp)).sum := by
  intro lines
  induction lines with
  | nil => intro a; simp
  | cons l rest ih =>
    intro a
    rw [List.foldl_cons, ih, estimate_height_step_eq, List.map_cons,
      List.sum_cons, add_assoc]

/-- C5.  Height-estimator formula: `estimate_height` walks the lines of the
content exactly once, summing per line {heading size + that level's before-
and after-spacing} for lines starting (once stripped) with one of the three
heading markers, {body size + body after-spacing} for any other non-blank
line, and {half of body after-spacing} for blank lines — text wrapping is
never taken into account. -/
theorem estimate_height_line_formula (content : String) (font_sizes : FontSizes)
    (spacing : Spacing) :
    estimate_height content font_sizes spacing =
      ((splitLines content).map (specLineHeight font_sizes spacing)).sum := by
  rw [estimate_height, foldl_estimate_height_step, zero_add]

/-- Products with a nonnegative middle coefficient are monotone in both outer
factors. -/
lemma prod_mono (a b c d e : ℚ) (he : 0 ≤ e) (ha0 : 0 ≤ a) (hab : a ≤ b)
    (hc0 : 0 ≤ c) (hcd : c ≤ d) : a * e * c ≤ b * e * d := by
  have h1 : a * c ≤ b * d := mul_le_mul hab hcd hc0 (le_trans ha0 hab)
  calc a * e * c = a * c * e := by ring
    _ ≤ b * d * e := mul_le_mul_of_nonneg_right h1 he
    _ = b * e * d := by ring

/-- Each per-line contribution is monotone in (font size, spacing scale) on
the nonnegative quadrant. -/
lemma specLineHeight_mono (l : String) (f fLow s sLow : ℚ) (hf0 : 0 ≤ fLow)
    (hf : fLow ≤ f) (hs0 : 0 ≤ sLow) (hs : sLow ≤ s) :
    specLineHeight (calculate_font_sizes fLow sLow) (calculate_spacing fLow sLow) l ≤
      specLineHeight (calculate_font_sizes f s) (calculate_spacing f s) l := by
  simp only [specLineHeight, calculate_font_sizes, calculate_spacing]
  split_ifs
  · exact mul_le_mul_of_nonneg_right
      (max_le_max le_rfl (by nlinarith)) (by norm_num)
  · refine add_le_add (add_le_add (by linarith)
      (max_le_max le_rfl (prod_mono _ _ _ _ 1 (by norm_num) (by linarith)
        (by linarith) hs0 hs))) ?_
    exact max_le_max le_rfl (prod_mono _ _ _ _ (8/10) (by norm_num)
      (by linarith) (by linarith) hs0 hs)
  · refine add_le_add (add_le_add (by linarith)
      (max_le_max le_rfl (prod_mono _ _ _ _ (9/10) (by norm_num) (by linarith)
        (by linarith) hs0 hs))) ?_
    exact max_le_max le_rfl (prod_mono _ _ _ _ (8/10) (by norm_num)
      (by linarith) (by linarith) hs0 hs)
  · refine add_le_add (add_le_add (by linarith)
      (max_le_max le_rfl (prod_mono _ _ _ _ (8/10) (by norm_num) (by linarith)
        (by linarith) hs0 hs))) ?_
    exact max_le_max le_rfl (prod_mono _ _ _ _ (7/10) (by norm_num)
      (by linarith) (by linarith) hs0 hs)
  · exact add_le_add hf (max_le_max le_rfl (by nlinarith))

/-- Monotonicity of the estimator, as a shared lemma. -/
lemma estimate_height_mono_aux (content : String) (f fLow s sLow : ℚ)
    (hf0 : 0 ≤ fLow) (hf : fLow ≤ f) (hs0 : 0 ≤ sLow) (hs : sLow ≤ s) :
    estimate_height content (calculate_font_sizes fLow sLow)
        (calculate_spacing fLow sLow) ≤
      estimate_height content (calculate_font_sizes f s) (calculate_spacing f s) := by
  rw [estimate_height, estimate_height, foldl_estimate_height_step,
    foldl_estimate_height_step, zero_add, zero_add]
  exact List.sum_le_sum fun l _ => specLineHeight_mono l f fLow s sLow hf0 hf hs0 hs

/-- C4.  Height-estimator monotonicity: for a fixed content string, lowering
the base font size or the spacing scale (or both) within the nonnegative
range never increases the estimated height computed from
`calculate_font_sizes` and `calculate_spacing`. -/
theorem estimate_height_monotone (content : String) (f fLow s sLow : ℚ)
    (hf0 : 0 ≤ fLow) (hf : fLow ≤ f) (hs0 : 0 ≤ sLow) (hs : sLow ≤ s) :
    estimate_height content (calculate_font_sizes fLow sLow)
        (calculate_spacing fLow sLow) ≤
      estimate_height content (calculate_font_sizes f s) (calculate_spacing f s) :=
  estimate_height_mono_aux content f fLow s sLow hf0 hf hs0 hs

/-- Witness for C4 at concrete inputs: shrinking from (10.0, 1.0) to
(7.5, 0.6) does not increase the estimate of a small document. -/
theorem estimate_height_monotone_witness :
    estimate_height "# Title\n\nBody line" (calculate_font_sizes (15/2) (6/10))
        (calculate_spacing (15/2) (6/10)) ≤
      estimate_height "# Title\n\nBody line" (calculate_font_sizes 10 1)
        (calculate_spacing 10 1) :=
  estimate_height_monotone "# Title\n\nBody line" 10 (15/2) 1 (6/10)
    (by norm_num) (by norm_num) (by norm_num) (by norm_num)

/-- Every font of the grid is at least the floor 5.0. -/
lemma fontGrid_ge (f : ℚ) (hf : f ∈ fontGrid) : 5 ≤ f := by
  fin_cases hf <;> norm_num

/-- Every scale of the grid is at least the floor 0.5. -/
lemma scaleGrid_ge (s : ℚ) (hs : s ∈ scaleGrid) : 1/2 ≤ s := by
  fin_cases hs <;> norm_num

/-- A member of the pair grid projects into the two axis grids. -/
lemma gridPairs_mem (p : ℚ × ℚ) (hp : p ∈ gridPairs) :
    p.1 ∈ fontGrid ∧ p.2 ∈ scaleGrid := by
  rw [gridPairs] at hp
  rcases List.mem_flatten.mp hp with ⟨l, hl, hpl⟩
  rcases List.mem_map.mp hl with ⟨f, hf, rfl⟩
  rcases List.mem_map.mp hpl with ⟨s, hs, rfl⟩
  exact ⟨hf, hs⟩

/-- Nineteen level-1 heading lines: every line contributes at least
9 + 10 + 8 = 27 points even at the grid floor, so the total estimate exceeds
the 504-point budget at every grid pair. -/
def overlongContent : String :=
  "# x\n# x\n# x\n# x\n# x\n# x\n# x\n# x\n# x\n# x\n# x\n# x\n# x\n# x\n# x\n# x\n# x\n# x\n# x"

/-- The floor-style estimate of `overlongContent` is 19 × 27 = 513. -/
lemma overlong_floor_estimate :
    estimate_height overlongContent (calculate_font_sizes 5 (1/2))
      (calculate_spacing 5 (1/2)) = 513 := by
  norm_num +decide [overlongContent, estimate_height, splitLines, splitLinesAux,
    estimate_height_step, pyStrip, pyStartsWith, calculate_font_sizes,
    calculate_spacing, max_def]

/-- No grid pair fits `overlongContent`: by monotonicity every grid estimate
is at least the floor estimate 513 > 504. -/
lemma overlong_unfit (f s : ℚ) (hf : 5 ≤ f) (hs : 1/2 ≤ s) :
    ¬ fitsAt overlongContent f s := by
  intro hfit
  have hmono := estimate_height_mono_aux overlongContent f 5 s (1/2)
    (by norm_num) hf (by norm_num) hs
  rw [overlong_floor_estimate] at hmono
  rw [fitsAt] at hfit
  have : (513 : ℚ) ≤ usable_height := le_trans hmono hfit
  norm_num [usable_height, page_height, margin, inch] at this

/-- The search exhausts its whole grid on `overlongContent` and falls back to
the floor pair (5.0, 0.5). -/
lemma find_optimal_scaling_overlong :
    find_optimal_scaling overlongContent true = (5, 1/2) := by
  have hnone : firstFit overlongContent = none := by
    rw [firstFit]
    have : ∀ l : List ℚ, (∀ f ∈ l, 5 ≤ f) → scanFonts overlongContent l = none := by
      intro l
      induction l with
      | nil => intro _; rw [scanFonts]
      | cons f rest ih =>
        intro hl
        rw [scanFonts]
        have hinner : scanScales overlongContent f scaleGrid = none := by
          have : ∀ l2 : List ℚ, (∀ s ∈ l2, 1/2 ≤ s) →
              scanScales overlongContent f l2 = none := by
            intro l2
            induction l2 with
            | nil => intro _; rw [scanScales]
            | cons s rest2 ih2 =>
              intro hl2
              rw [scanScales, if_neg (overlong_unfit f s
                (hl (f := f) (List.mem_cons_self f rest))
                (hl2 s (List.mem_cons_self s rest2)))]
              exact ih2 fun t ht => hl2 t (List.mem_cons_of_mem s ht)
          exact this scaleGrid scaleGrid_ge
        rw [hinner]
        exact ih fun g hg => hl g (List.mem_cons_of_mem f hg)
    exact this fontGrid fontGrid_ge
  rw [find_optimal_scaling_eq_firstFit, hnone]
  rfl

/-- The empty content fits at the very first grid pair: its estimate is half
the body after-spacing, 3 ≤ 504. -/
lemma fits_empty : fitsAt "" 10 1 := by
  norm_num +decide [fitsAt, usable_height, page_height, margin, inch,
    estimate_height, splitLines, splitLinesAux, estimate_height_step, pyStrip,
    pyStartsWith, calculate_font_sizes, calculate_spacing, max_def]

/-- On empty content the search succeeds immediately at (10.0, 1.0). -/
lemma find_optimal_scaling_empty : find_optimal_scaling "" true = (10, 1) := by
  have : firstFit "" = some (10, 1) := by
    rw [firstFit, fontGrid, scanFonts, scaleGrid, scanScales, if_pos fits_empty]
  rw [find_optimal_scaling_eq_firstFit, this]
  rfl

/-- On the content "Short note" the search succeeds immediately at
(10.0, 1.0). -/
lemma find_optimal_scaling_short_note :
    find_optimal_scaling "Short note" true = (10, 1) := by
  have : firstFit "Short note" = some (10, 1) := by
    rw [firstFit, fontGrid, scanFonts, scaleGrid, scanScales,
      if_pos fits_short_note]
  rw [find_optimal_scaling_eq_firstFit, this]
  rfl

/-- C6.  Spacing floors: on the whole search range (font in [5, 10], scale in
[0.5, 1]) every derived spacing value of `calculate_spacing` is bounded below
by its scale-independent floor: body after 2, h3 after 4, h2 after 6, h3
before 6, h1 after 8, h2 before 8, title after 8 and h1 before 10. -/
theorem calculate_spacing_floors (f s : ℚ) (hf5 : 5 ≤ f) (hf10 : f ≤ 10)
    (hs5 : 1/2 ≤ s) (hs1 : s ≤ 1) :
    2 ≤ (calculate_spacing f s).space_after_body ∧
    4 ≤ (calculate_spacing f s).space_after_h3 ∧
    6 ≤ (calculate_spacing f s).space_after_h2 ∧
    6 ≤ (calculate_spacing f s).space_before_h3 ∧
    8 ≤ (calculate_spacing f s).space_after_h1 ∧
    8 ≤ (calculate_spacing f s).space_before_h2 ∧
    8 ≤ (calculate_spacing f s).space_after_title ∧
    10 ≤ (calculate_spacing f s).space_before_h1 := by
  simp only [calculate_spacing]
  exact ⟨le_max_left _ _, le_max_left _ _, le_max_left _ _, le_max_left _ _,
    le_max_left _ _, le_max_left _ _, le_max_left _ _, le_max_left _ _⟩

/-- Witness for C6 at a concrete grid point inside the search range. -/
theorem calculate_spacing_floors_witness :
    2 ≤ (calculate_spacing 7 (3/4)).space_after_body ∧
    4 ≤ (calculate_spacing 7 (3/4)).space_after_h3 ∧
    6 ≤ (calculate_spacing 7 (3/4)).space_after_h2 ∧
    6 ≤ (calculate_spacing 7 (3/4)).space_before_h3 ∧
    8 ≤ (calculate_spacing 7 (3/4)).space_after_h1 ∧
    8 ≤ (calculate_spacing 7 (3/4)).space_before_h2 ∧
    8 ≤ (calculate_spacing 7 (3/4)).space_after_title ∧
    10 ≤ (calculate_spacing 7 (3/4)).space_before_h1 :=
  calculate_spacing_floors 7 (3/4) (by norm_num) (by norm_num) (by norm_num)
    (by norm_num)

/-- C7.  Search/render style agreement: the copies of `calculate_font_sizes`
and `calculate_spacing` nested inside `find_optimal_scaling` compute, at
every (font size, spacing scale) pair, exactly the same style records as the
copies nested inside `create_formatted_pdf` — the style used to estimate fit
is the style used to build the emitted document. -/
theorem style_maps_agree (f s : ℚ) :
    calculate_font_sizes f s = render_calculate_font_sizes f s ∧
    calculate_spacing f s = render_calculate_spacing f s :=
  ⟨rfl, rfl⟩

/-- C1 (code bug).  The 4x6 pipeline performs no real layout pass and has no
fit-failure path: on `overlongContent` — which no grid pair fits, so that
even the wrap-ignoring underestimate exceeds the two-page budget at the
emitted floor style — `create_formatted_pdf` still emits a document built at
the fallback pair (5.0, 0.5), and a print request over it returns the plain
success response.  The claimed behaviour (one real page-count verification
before acceptance, FitFailure otherwise) does not exist in the code. -/
theorem no_verification_before_success :
    (gridPairs.all fun p => !fitsB overlongContent p.1 p.2) = true ∧
    create_formatted_pdf overlongContent none true =
      { title := none
        chosen := some (5, 1/2)
        font_sizes := render_calculate_font_sizes 5 (1/2)
        spacing := render_calculate_spacing 5 (1/2) } ∧
    (print_file overlongContent none true none "card.pdf" 0 "").response =
      "Successfully printed 'card.pdf' on default printer" := by
  refine ⟨?_, ?_, rfl⟩
  · rw [List.all_eq_true]
    intro p hp
    rcases gridPairs_mem p hp with ⟨hf, hs⟩
    simp only [Bool.not_eq_true', fitsB, decide_eq_false_iff_not]
    exact overlong_unfit p.1 p.2 (fontGrid_ge p.1 hf) (scaleGrid_ge p.2 hs)
  · simp [create_formatted_pdf, find_optimal_scaling_overlong]

/-- C2 (code bug).  Search exhaustion is not reported as a failure: when no
grid pair fits, `find_optimal_scaling` returns the floor pair
(min_font_size, min_spacing_scale) = (5.0, 0.5) instead of signalling a fit
failure, and the caller proceeds to build and print the document under that
fallback style. -/
theorem search_exhaustion_not_a_failure :
    (gridPairs.all fun p => !fitsB overlongContent p.1 p.2) = true ∧
    find_optimal_scaling overlongContent true =
      (min_font_size, min_spacing_scale) ∧
    (create_formatted_pdf overlongContent none true).chosen = some (5, 1/2) ∧
    (print_file overlongContent none true none "doc.pdf" 0 "").response =
      "Successfully printed 'doc.pdf' on default printer" := by
  refine ⟨?_, find_optimal_scaling_overlong, ?_, rfl⟩
  · rw [List.all_eq_true]
    intro p hp
    rcases gridPairs_mem p hp with ⟨hf, hs⟩
    simp only [Bool.not_eq_true', fitsB, decide_eq_false_iff_not]
    exact overlong_unfit p.1 p.2 (fontGrid_ge p.1 hf) (scaleGrid_ge p.2 hs)
  · simp [create_formatted_pdf, find_optimal_scaling_overlong]

/-- C8 counterexample.  An empty-content request is not rejected: the
pipeline runs the auto-fit search on "" (it fits at the first grid point, so
`chosen = some (10, 1)`), emits a document and returns the ordinary success
response — no InputError of any kind is produced. -/
theorem empty_content_not_rejected :
    (print_file "" none true none "doc.pdf" 0 "").response =
      "Successfully printed 'doc.pdf' on default printer" ∧
    (print_file "" none true none "doc.pdf" 0 "").emitted =
      some (create_formatted_pdf "" none true) ∧
    (create_formatted_pdf "" none true).chosen = some (10, 1) := by
  refine ⟨rfl, rfl, ?_⟩
  simp [create_formatted_pdf, find_optimal_scaling_empty]

/-- C8 as amended.  `print_file` performs no empty-content validation: an
empty content string flows through the normal pipeline, and with
`format4x6 = true` the auto-fit search is invoked on it (succeeding at once
with font 10.0 and scale 1.0); the emitted document is handed to the
dispatcher like any other. -/
theorem print_file_empty_runs_search (filename : Option String)
    (printer_name : Option String) (pdf_basename : String) (returncode : Int)
    (stderrText : String) :
    (print_file "" filename true printer_name pdf_basename returncode
        stderrText).emitted = some (create_formatted_pdf "" filename true) ∧
    (create_formatted_pdf "" filename true).chosen = some (10, 1) := by
  refine ⟨rfl, ?_⟩
  simp [create_formatted_pdf, find_optimal_scaling_empty]

/-- C9 counterexample.  A successful 4x6 request whose chosen parameters are
(10.0, 1.0) returns a response containing no digit at all, so the response
includes neither the chosen font size nor the chosen spacing scale. -/
theorem success_response_lacks_parameters :
    (create_formatted_pdf "Short note" none true).chosen = some (10, 1) ∧
    (print_file "Short note" none true none "card.pdf" 0 "").response =
      "Successfully printed 'card.pdf' on default printer" ∧
    ((print_file "Short note" none true none "card.pdf" 0 "").response.data.all
      fun ch => !ch.isDigit) = true := by
  refine ⟨?_, rfl, by decide⟩
  simp [create_formatted_pdf, find_optimal_scaling_short_note]

/-- C9 as amended.  The response of every successful print request is exactly
"Successfully printed '<pdf basename>' on <printer>": it names the printed
file and the printer used, but never the chosen font size or spacing scale
(which are not even passed to the message constructor). -/
theorem success_message_shape (content : String) (filename : Option String)
    (format4x6 : Bool) (printer_name : Option String) (pdf_basename : String)
    (stderrText : String) :
    (print_file content filename format4x6 printer_name pdf_basename 0
        stderrText).response =
      "Successfully printed '" ++ pdf_basename ++ "' on " ++
        printer_name.getD "default printer" :=
  rfl

/-- C10.  The verifier-like method is unreachable-by-construction: the class
defines no `estimate_content_height` method, so `test_content_fit` with
`format4x6 = true` always ends in an AttributeError at the
`self.estimate_content_height(...)` call, while with `format4x6 = false` it
returns True without computing anything. -/
theorem test_content_fit_always_errors :
    (pyServerMethods.contains "estimate_content_height") = false ∧
    (∀ content font_sizes, test_content_fit content font_sizes true =
      .attributeError "estimate_content_height") ∧
    (∀ content font_sizes, test_content_fit content font_sizes false =
      .ok true) :=
  ⟨by decide, fun _ _ => rfl, fun _ _ => rfl⟩

end Printer
